import Mathlib

/-!
Verification of the OAGW outbound-gateway authentication plugins and module
configuration, as a shallow embedding of:

* `src/modules/system/oagw/oagw/src/domain/plugin/mod.rs` (`PluginError`,
  `AuthContext`),
* `src/modules/system/oagw/oagw/src/infra/plugin/apikey_auth.rs`
  (`ApiKeyConfig`, `ApiKeyAuthPlugin::authenticate`),
* `src/modules/system/oagw/oagw/src/infra/plugin/noop_auth.rs`
  (`NoopAuthPlugin::authenticate`),
* `src/modules/system/oagw/oagw/src/config.rs` (`OagwConfig`).

Rust `HashMap<String, String>` is modelled as an association list with
replace-on-insert semantics, byte buffers as `List Nat` (each entry one
byte), and the external credential-store collaborator (`CredStoreClientV1`
plus `SecretRef::new` validation) as a record of functions, since only its
lookup protocol is relevant to the plugin code. Mutation of the
`AuthContext` is modelled by returning the updated context next to the
`Result` value.
-/

namespace Oagw

/-- Association-list model of Rust `HashMap<String, String>`: lookup returns
the value of the first binding with the given key; insertion replaces an
existing binding in place, else appends. -/
abbrev StrMap := List (String × String)

/-- Model of `HashMap::get` (as used via serde field extraction and header
lookups). -/
def StrMap.get? : StrMap → String → Option String
  | [], _ => none
  | (k', v') :: rest, k => if k' = k then some v' else StrMap.get? rest k

/-- Model of `HashMap::insert`: replace the binding for `k` when present,
otherwise add it. -/
def StrMap.insert : StrMap → String → String → StrMap
  | [], k, v => [(k, v)]
  | (k', v') :: rest, k, v =>
    if k' = k then (k, v) :: rest else (k', v') :: StrMap.insert rest k v

/-- Security context of the calling subject (`modkit_security::SecurityContext`):
the plugin code only passes it through to the secret store, so tenant and
subject identities are modelled as opaque numbers. -/
structure SecurityContext where
  subject_tenant_id : Nat
  subject_id : Nat
deriving DecidableEq

/-- Response of a credential-store lookup (`credstore_sdk::GetSecretResponse`);
the plugin only reads `value.as_bytes()`, so only the byte value is kept. -/
structure GetSecretResponse where
  value : List Nat
deriving DecidableEq

/-- Model of the external credential-store collaborator: `SecretRef::new`
validation (`newRefErr r = some e` means construction fails with message `e`)
and `CredStoreClientV1::get`, keyed by the normalized reference string and
returning `Ok(None)` for "not found" distinct from a backend error. -/
structure CredStore where
  newRefErr : String → Option String
  get : SecurityContext → String → Except String (Option GetSecretResponse)

/-- Errors returned by auth plugins (`PluginError` in `domain/plugin/mod.rs`). -/
inductive PluginError where
  | SecretNotFound : String → PluginError
  | AuthFailed : String → PluginError
  | Rejected : String → PluginError
  | Internal : String → PluginError
deriving DecidableEq

/-- Request context passed to an auth plugin for header injection
(`AuthContext` in `domain/plugin/mod.rs`). -/
structure AuthContext where
  headers : StrMap
  config : StrMap
  security_context : SecurityContext
deriving DecidableEq

/-- Configuration for the API key auth plugin (`ApiKeyConfig` in
`apikey_auth.rs`). The Rust field `prefix` is spelled `prefixVal` because
its source name is reserved in Lean. -/
structure ApiKeyConfig where
  header : String
  prefixVal : String
  secret_ref : String
deriving DecidableEq

/-- Serde extraction of `ApiKeyConfig` from the string-to-string `config`
map (`serde_json::from_value(serde_json::to_value(&ctx.config)?)?`):
`header` and `secret_ref` are required, `prefix` defaults to the empty
string, unknown keys are ignored, and every value in the map is already a
string so no type error can occur. -/
def parseApiKeyConfig (config : StrMap) : Except String ApiKeyConfig :=
  match StrMap.get? config "header", StrMap.get? config "secret_ref" with
  | some h, some r =>
      .ok ⟨h, (StrMap.get? config "prefix").getD "", r⟩
  | none, _ => .error "missing field header"
  | some _, none => .error "missing field secret_ref"

/-- The characters of the `cred://` scheme marker. -/
def credScheme : List Char := ['c', 'r', 'e', 'd', ':', '/', '/']

/-- Model of `config.secret_ref.strip_prefix("cred://").unwrap_or(&config.secret_ref)`:
drop a leading `cred://` when present, else keep the string unchanged. -/
def stripCredScheme (s : String) : String :=
  if credScheme.isPrefixOf s.data then ⟨s.data.drop credScheme.length⟩ else s

/-- Whether a byte is a UTF-8 continuation byte (`0x80..=0xBF`). -/
def isUtf8Cont (b : Nat) : Bool := 0x80 ≤ b && b ≤ 0xBF

/-- Admissible second byte of a three-byte UTF-8 sequence headed by `b0`
(excludes overlong forms for `0xE0` and surrogate code points for `0xED`). -/
def utf8Second3 (b0 b1 : Nat) : Bool :=
  if b0 = 0xE0 then 0xA0 ≤ b1 && b1 ≤ 0xBF
  else if b0 = 0xED then 0x80 ≤ b1 && b1 ≤ 0x9F
  else isUtf8Cont b1

/-- Admissible second byte of a four-byte UTF-8 sequence headed by `b0`
(excludes overlong forms for `0xF0` and code points above `U+10FFFF` for
`0xF4`). -/
def utf8Second4 (b0 b1 : Nat) : Bool :=
  if b0 = 0xF0 then 0x90 ≤ b1 && b1 ≤ 0xBF
  else if b0 = 0xF4 then 0x80 ≤ b1 && b1 ≤ 0x8F
  else isUtf8Cont b1

/-- Strict UTF-8 decoding of a byte list, fuelled by the list length (each
step consumes at least one byte). Mirrors the validation rules of Rust's
`std::str::from_utf8`: rejects stray continuation bytes, overlong
encodings, surrogates and code points above `U+10FFFF`. -/
def utf8DecodeAux : Nat → List Nat → Option (List Char)
  | _, [] => some []
  | 0, _ :: _ => none
  | fuel + 1, b0 :: rest =>
    if b0 < 0x80 then
      (utf8DecodeAux fuel rest).map (fun cs => Char.ofNat b0 :: cs)
    else if 0xC2 ≤ b0 && b0 ≤ 0xDF then
      match rest with
      | b1 :: rest1 =>
        if isUtf8Cont b1 then
          (utf8DecodeAux fuel rest1).map
            (fun cs => Char.ofNat ((b0 - 0xC0) * 0x40 + (b1 - 0x80)) :: cs)
        else none
      | [] => none
    else if 0xE0 ≤ b0 && b0 ≤ 0xEF then
      match rest with
      | b1 :: b2 :: rest2 =>
        if utf8Second3 b0 b1 && isUtf8Cont b2 then
          (utf8DecodeAux fuel rest2).map
            (fun cs =>
              Char.ofNat ((b0 - 0xE0) * 0x1000 + (b1 - 0x80) * 0x40 + (b2 - 0x80)) :: cs)
        else none
      | _ => none
    else if 0xF0 ≤ b0 && b0 ≤ 0xF4 then
      match rest with
      | b1 :: b2 :: b3 :: rest3 =>
        if utf8Second4 b0 b1 && isUtf8Cont b2 && isUtf8Cont b3 then
          (utf8DecodeAux fuel rest3).map
            (fun cs =>
              Char.ofNat
                ((b0 - 0xF0) * 0x40000 + (b1 - 0x80) * 0x1000 +
                  (b2 - 0x80) * 0x40 + (b3 - 0x80)) :: cs)
        else none
      | _ => none
    else none

/-- Model of `std::str::from_utf8(bytes)`: `some` of the decoded string
exactly when the bytes are valid UTF-8. -/
def utf8Decode (bytes : List Nat) : Option String :=
  (utf8DecodeAux bytes.length bytes).map fun cs => ⟨cs⟩

/-- Model of Rust `str::to_lowercase` as used for header names (ASCII case
mapping; the full Unicode case tables are out of scope and irrelevant to
the ASCII header names the gateway handles). -/
def lowercase (s : String) : String := ⟨s.data.map Char.toLower⟩

deriving instance DecidableEq for Except

namespace ApiKeyAuthPlugin

/-- Shallow embedding of `ApiKeyAuthPlugin::authenticate`. The Rust method
takes `&mut AuthContext` and returns `Result<(), PluginError>`; here the
updated context is returned next to the result. The credential store
(`self.credstore` plus `SecretRef::new`) is passed as an explicit
collaborator. -/
def authenticate (credstore : CredStore) (ctx : AuthContext) :
    Except PluginError Unit × AuthContext :=
  match parseApiKeyConfig ctx.config with
  | .error e => (.error (.Internal ("invalid apikey auth config: " ++ e)), ctx)
  | .ok config =>
    let raw_ref := stripCredScheme config.secret_ref
    match credstore.newRefErr raw_ref with
    | some e =>
        (.error (.Internal ("invalid secret ref '" ++ raw_ref ++ "': " ++ e)), ctx)
    | none =>
      match credstore.get ctx.security_context raw_ref with
      | .error e => (.error (.Internal ("credstore error: " ++ e)), ctx)
      | .ok none => (.error (.SecretNotFound config.secret_ref), ctx)
      | .ok (some response) =>
        match utf8Decode response.value with
        | none => (.error (.Internal "secret value is not valid UTF-8"), ctx)
        | some secret_str =>
          (.ok (),
           { ctx with
             headers :=
               StrMap.insert ctx.headers (lowercase config.header)
                 (config.prefixVal ++ secret_str) })

end ApiKeyAuthPlugin

namespace NoopAuthPlugin

/-- Shallow embedding of `NoopAuthPlugin::authenticate`: succeeds without
touching the context. -/
def authenticate (ctx : AuthContext) : Except PluginError Unit × AuthContext :=
  (.ok (), ctx)

end NoopAuthPlugin

/-- Configuration for the OAGW module (`OagwConfig` in `config.rs`). -/
structure OagwConfig where
  proxy_timeout_secs : Nat
  max_body_size_bytes : Nat
deriving DecidableEq

/-- Serde default for `proxy_timeout_secs`. -/
def default_proxy_timeout_secs : Nat := 30

/-- Serde default for `max_body_size_bytes` (10 MB). -/
def default_max_body_size_bytes : Nat := 10 * 1024 * 1024

/-- `OagwConfig::default()`. -/
def OagwConfig.default : OagwConfig :=
  { proxy_timeout_secs := default_proxy_timeout_secs,
    max_body_size_bytes := default_max_body_size_bytes }

/-- Serde deserialization of `OagwConfig` from a configuration document in
which either field may be absent (`#[serde(default = ...)]` on both): an
absent field takes its default, a present field takes the supplied value. -/
def OagwConfig.deserialize (timeout? : Option Nat) (bodySize? : Option Nat) :
    OagwConfig :=
  { proxy_timeout_secs := timeout?.getD default_proxy_timeout_secs,
    max_body_size_bytes := bodySize?.getD default_max_body_size_bytes }

/-- Plugin-config map with the three keys the API key plugin reads; used to
state claims that vary a single field with all other inputs equal. -/
def mkApiKeyConfigMap (h p r : String) : StrMap :=
  [("header", h), ("prefix", p), ("secret_ref", r)]

/-! ### Helper lemmas -/

/-- Inserting under one key leaves lookups under every other key unchanged. -/
theorem StrMap.get?_insert_ne (m : StrMap) (k q v : String) (hq : q ≠ k) :
    StrMap.get? (StrMap.insert m k v) q = StrMap.get? m q := by
  induction m with
  | nil => simp [StrMap.insert, StrMap.get?, Ne.symm hq]
  | cons kv rest ih =>
    obtain ⟨k0, v0⟩ := kv
    by_cases hk : k0 = k
    · subst hk
      simp [StrMap.insert, StrMap.get?, Ne.symm hq]
    · simp only [StrMap.insert, if_neg hk]
      by_cases hk' : k0 = q
      · simp [StrMap.get?, hk']
      · simp [StrMap.get?, hk', ih]

/-- The scheme marker is a prefix of any string it is prepended to. -/
theorem credScheme_isPre_append (l : List Char) :
    credScheme.isPrefixOf (credScheme ++ l) = true := by
  simp [credScheme, List.isPrefixOf]

/-- Stripping the scheme from a `cred://`-prefixed reference yields the bare
name. -/
theorem stripCredScheme_append (k : String) :
    stripCredScheme ("cred://" ++ k) = k := by
  have hdata : ("cred://" ++ k).data = credScheme ++ k.data := rfl
  unfold stripCredScheme
  rw [hdata, credScheme_isPre_append]
  simp only [if_true]
  have hdrop : (credScheme ++ k.data).drop credScheme.length = k.data :=
    List.drop_left credScheme k.data
  rw [hdrop]

/-- Stripping is the identity on references not carrying the scheme. -/
theorem stripCredScheme_of_bare (k : String)
    (h : credScheme.isPrefixOf k.data = false) : stripCredScheme k = k := by
  simp [stripCredScheme, h]

/-- Config extraction succeeds exactly from the `header` and `secret_ref`
entries, with `prefix` defaulted. -/
theorem parseApiKeyConfig_eq (config : StrMap) (h r : String)
    (hh : StrMap.get? config "header" = some h)
    (hr : StrMap.get? config "secret_ref" = some r) :
    parseApiKeyConfig config = .ok ⟨h, (StrMap.get? config "prefix").getD "", r⟩ := by
  unfold parseApiKeyConfig
  rw [hh, hr]

/-- Config extraction fails when the `header` entry is absent. -/
theorem parseApiKeyConfig_err_of_no_header (config : StrMap)
    (hh : StrMap.get? config "header" = none) :
    parseApiKeyConfig config = .error "missing field header" := by
  unfold parseApiKeyConfig
  rw [hh]

/-- Config extraction fails when the `secret_ref` entry is absent. -/
theorem parseApiKeyConfig_err_of_no_ref (config : StrMap) (h : String)
    (hh : StrMap.get? config "header" = some h)
    (hr : StrMap.get? config "secret_ref" = none) :
    parseApiKeyConfig config = .error "missing field secret_ref" := by
  unfold parseApiKeyConfig
  rw [hh, hr]

/-- Successful run of the API key plugin, fully characterised. -/
theorem authenticate_ok (cs : CredStore) (ctx : AuthContext) (h p r : String)
    (resp : GetSecretResponse) (s : String)
    (hh : StrMap.get? ctx.config "header" = some h)
    (hr : StrMap.get? ctx.config "secret_ref" = some r)
    (hp : (StrMap.get? ctx.config "prefix").getD "" = p)
    (href : cs.newRefErr (stripCredScheme r) = none)
    (hget : cs.get ctx.security_context (stripCredScheme r) = .ok (some resp))
    (hdec : utf8Decode resp.value = some s) :
    ApiKeyAuthPlugin.authenticate cs ctx =
      (.ok (),
       { ctx with headers := StrMap.insert ctx.headers (lowercase h) (p ++ s) }) := by
  unfold ApiKeyAuthPlugin.authenticate
  rw [parseApiKeyConfig_eq ctx.config h r hh hr, hp]
  simp only [href, hget, hdec]

/-- Run of the API key plugin ending in a malformed-config error. -/
theorem authenticate_parse_err (cs : CredStore) (ctx : AuthContext) (e : String)
    (hp : parseApiKeyConfig ctx.config = .error e) :
    ApiKeyAuthPlugin.authenticate cs ctx =
      (.error (.Internal ("invalid apikey auth config: " ++ e)), ctx) := by
  unfold ApiKeyAuthPlugin.authenticate
  rw [hp]

/-- Run of the API key plugin ending in a credstore backend error. -/
theorem authenticate_store_err (cs : CredStore) (ctx : AuthContext) (h r e : String)
    (hh : StrMap.get? ctx.config "header" = some h)
    (hr : StrMap.get? ctx.config "secret_ref" = some r)
    (href : cs.newRefErr (stripCredScheme r) = none)
    (hget : cs.get ctx.security_context (stripCredScheme r) = .error e) :
    ApiKeyAuthPlugin.authenticate cs ctx =
      (.error (.Internal ("credstore error: " ++ e)), ctx) := by
  unfold ApiKeyAuthPlugin.authenticate
  rw [parseApiKeyConfig_eq ctx.config h r hh hr]
  simp only [href, hget]

/-- Run of the API key plugin ending in a secret-not-found error: the error
carries the un-normalized reference exactly as configured. -/
theorem authenticate_not_found (cs : CredStore) (ctx : AuthContext) (h r : String)
    (hh : StrMap.get? ctx.config "header" = some h)
    (hr : StrMap.get? ctx.config "secret_ref" = some r)
    (href : cs.newRefErr (stripCredScheme r) = none)
    (hget : cs.get ctx.security_context (stripCredScheme r) = .ok none) :
    ApiKeyAuthPlugin.authenticate cs ctx = (.error (.SecretNotFound r), ctx) := by
  unfold ApiKeyAuthPlugin.authenticate
  rw [parseApiKeyConfig_eq ctx.config h r hh hr]
  simp only [href, hget]

/-- Run of the API key plugin ending in the non-UTF-8-secret error. -/
theorem authenticate_utf8_err (cs : CredStore) (ctx : AuthContext) (h r : String)
    (resp : GetSecretResponse)
    (hh : StrMap.get? ctx.config "header" = some h)
    (hr : StrMap.get? ctx.config "secret_ref" = some r)
    (href : cs.newRefErr (stripCredScheme r) = none)
    (hget : cs.get ctx.security_context (stripCredScheme r) = .ok (some resp))
    (hdec : utf8Decode resp.value = none) :
    ApiKeyAuthPlugin.authenticate cs ctx =
      (.error (.Internal "secret value is not valid UTF-8"), ctx) := by
  unfold ApiKeyAuthPlugin.authenticate
  rw [parseApiKeyConfig_eq ctx.config h r hh hr]
  simp only [href, hget, hdec]

/-- Every failing run leaves the context untouched: the single header
insertion sits after the last fallible step. -/
theorem authenticate_snd_of_err (cs : CredStore) (ctx : AuthContext)
    (e : PluginError) (h : (ApiKeyAuthPlugin.authenticate cs ctx).1 = .error e) :
    (ApiKeyAuthPlugin.authenticate cs ctx).2 = ctx := by
  cases hp : parseApiKeyConfig ctx.config with
  | error e' => simp [ApiKeyAuthPlugin.authenticate, hp]
  | ok cfg =>
    cases hn : cs.newRefErr (stripCredScheme cfg.secret_ref) with
    | some e' => simp [ApiKeyAuthPlugin.authenticate, hp, hn]
    | none =>
      cases hg : cs.get ctx.security_context (stripCredScheme cfg.secret_ref) with
      | error e' => simp [ApiKeyAuthPlugin.authenticate, hp, hn, hg]
      | ok o =>
        cases o with
        | none => simp [ApiKeyAuthPlugin.authenticate, hp, hn, hg]
        | some resp =>
          cases hd : utf8Decode resp.value with
          | none => simp [ApiKeyAuthPlugin.authenticate, hp, hn, hg, hd]
          | some s =>
            simp [ApiKeyAuthPlugin.authenticate, hp, hn, hg, hd] at h

/-! ### Concrete collaborators for witnesses -/

/-- Concrete security context for witness runs. -/
def wSc : SecurityContext := ⟨1, 2⟩

/-- Bytes of the secret `sk-abc123` (ASCII). -/
def wBytes : List Nat := "sk-abc123".data.map Char.toNat

/-- Store holding exactly the secret `openai-key`, accepting every reference. -/
def wStore : CredStore :=
  ⟨fun _ => none,
   fun _ k => if k = "openai-key" then .ok (some ⟨wBytes⟩) else .ok none⟩

/-- Context configured like the spec's end-to-end scenario, with one
pre-existing header. -/
def wCtx : AuthContext :=
  ⟨[("x-existing", "value")],
   mkApiKeyConfigMap "Authorization" "Bearer " "cred://openai-key", wSc⟩

/-- Store whose lookups always fail with a backend error. -/
def wFailStore : CredStore := ⟨fun _ => none, fun _ _ => .error "backend failure"⟩

/-- Store with no secrets at all. -/
def wEmptyStore : CredStore := ⟨fun _ => none, fun _ _ => .ok none⟩

/-- Store returning the non-UTF-8 secret bytes `[0xFF, 0xFE]` for every key. -/
def wBadUtf8Store : CredStore :=
  ⟨fun _ => none, fun _ _ => .ok (some ⟨[0xFF, 0xFE]⟩)⟩

/-- Context whose config lacks the required `header` key. -/
def wNoHeaderCtx : AuthContext := ⟨[], [("secret_ref", "cred://k")], wSc⟩

/-- Store for the C2 counterexample: the stored secret's name itself starts
with `cred://`. -/
def cxStore : CredStore :=
  ⟨fun _ => none,
   fun _ k => if k = "cred://x" then .ok (some ⟨[118]⟩) else .ok none⟩

/-- C2 counterexample context with `secret_ref` equal to `cred://` + the
stored name. -/
def cxCtxA : AuthContext := ⟨[], mkApiKeyConfigMap "x-api-key" "" "cred://cred://x", wSc⟩

/-- C2 counterexample context with `secret_ref` equal to the bare stored
name. -/
def cxCtxB : AuthContext := ⟨[], mkApiKeyConfigMap "x-api-key" "" "cred://x", wSc⟩

/-! ### Claims -/

/-- C1: for every `AuthContext` whose config contains `header` and
`secret_ref` (with `prefix` defaulting to the empty string when absent) and
whose secret reference resolves to a UTF-8 secret value in the secret
store, `ApiKeyAuthPlugin::authenticate` returns `Ok(())` and sets
`ctx.headers[lowercase(header)]` to `prefix + secret_text`. -/
theorem C1_apikey_success (cs : CredStore) (ctx : AuthContext)
    (h p r : String) (resp : GetSecretResponse) (s : String)
    (hh : StrMap.get? ctx.config "header" = some h)
    (hr : StrMap.get? ctx.config "secret_ref" = some r)
    (hp : (StrMap.get? ctx.config "prefix").getD "" = p)
    (href : cs.newRefErr (stripCredScheme r) = none)
    (hget : cs.get ctx.security_context (stripCredScheme r) = .ok (some resp))
    (hdec : utf8Decode resp.value = some s) :
    ApiKeyAuthPlugin.authenticate cs ctx =
      (.ok (),
       { ctx with headers := StrMap.insert ctx.headers (lowercase h) (p ++ s) }) :=
  authenticate_ok cs ctx h p r resp s hh hr hp href hget hdec

/-- Witness for C1: the spec's end-to-end scenario injects
`authorization: Bearer sk-abc123`. -/
theorem C1_witness :
    ApiKeyAuthPlugin.authenticate wStore wCtx =
      (.ok (),
       { wCtx with
         headers :=
           StrMap.insert wCtx.headers (lowercase "Authorization")
             ("Bearer " ++ "sk-abc123") }) :=
  C1_apikey_success wStore wCtx "Authorization" "Bearer " "cred://openai-key"
    ⟨wBytes⟩ "sk-abc123" (by decide) (by decide) (by decide) (by decide)
    (by decide) (by decide)

/-- C2 counterexample: for the secret name `k = "cred://x"` (which itself
carries the scheme marker) stored in the secret store, the claimed
equivalence of `cred://`-prefixed and bare references fails: the two runs
normalize to different lookup keys, the bare run fails with
`SecretNotFound`, and the injected header maps differ. -/
theorem C2_counterexample :
    cxStore.get wSc "cred://x" = .ok (some ⟨[118]⟩)
    ∧ stripCredScheme "cred://cred://x" ≠ stripCredScheme "cred://x"
    ∧ (ApiKeyAuthPlugin.authenticate cxStore cxCtxA).2.headers ≠
        (ApiKeyAuthPlugin.authenticate cxStore cxCtxB).2.headers
    ∧ (ApiKeyAuthPlugin.authenticate cxStore cxCtxB).1 =
        .error (.SecretNotFound "cred://x") := by
  refine ⟨by decide, by decide, by decide, by decide⟩

/-- C2 (amended): for every secret name `k` that does not itself begin with
`cred://`, and every secret store in which `k` resolves to a UTF-8 secret,
running the plugin with `secret_ref = "cred://" + k` and with
`secret_ref = k` (all other inputs equal) normalizes both references to the
same lookup key `k` and produces identical injected header maps. -/
theorem C2_cred_scheme_equiv (cs : CredStore) (hs : StrMap)
    (sc : SecurityContext) (h p k : String) (resp : GetSecretResponse)
    (s : String)
    (hk : credScheme.isPrefixOf k.data = false)
    (href : cs.newRefErr k = none)
    (hget : cs.get sc k = .ok (some resp))
    (hdec : utf8Decode resp.value = some s) :
    stripCredScheme ("cred://" ++ k) = stripCredScheme k
    ∧ (ApiKeyAuthPlugin.authenticate cs
        ⟨hs, mkApiKeyConfigMap h p ("cred://" ++ k), sc⟩).1 = .ok ()
    ∧ (ApiKeyAuthPlugin.authenticate cs
        ⟨hs, mkApiKeyConfigMap h p k, sc⟩).1 = .ok ()
    ∧ (ApiKeyAuthPlugin.authenticate cs
        ⟨hs, mkApiKeyConfigMap h p ("cred://" ++ k), sc⟩).2.headers =
      (ApiKeyAuthPlugin.authenticate cs
        ⟨hs, mkApiKeyConfigMap h p k, sc⟩).2.headers := by
  have hbare : stripCredScheme k = k := stripCredScheme_of_bare k hk
  have hfull : stripCredScheme ("cred://" ++ k) = k := stripCredScheme_append k
  have e1 :
      ApiKeyAuthPlugin.authenticate cs
          ⟨hs, mkApiKeyConfigMap h p ("cred://" ++ k), sc⟩ =
        (.ok (),
         { headers := StrMap.insert hs (lowercase h) (p ++ s),
           config := mkApiKeyConfigMap h p ("cred://" ++ k),
           security_context := sc }) := by
    apply authenticate_ok cs ⟨hs, mkApiKeyConfigMap h p ("cred://" ++ k), sc⟩
      h p ("cred://" ++ k) resp s rfl rfl rfl
    · rw [hfull]; exact href
    · rw [hfull]; exact hget
    · exact hdec
  have e2 :
      ApiKeyAuthPlugin.authenticate cs ⟨hs, mkApiKeyConfigMap h p k, sc⟩ =
        (.ok (),
         { headers := StrMap.insert hs (lowercase h) (p ++ s),
           config := mkApiKeyConfigMap h p k,
           security_context := sc }) := by
    apply authenticate_ok cs ⟨hs, mkApiKeyConfigMap h p k, sc⟩ h p k resp s
      rfl rfl rfl
    · rw [hbare]; exact href
    · rw [hbare]; exact hget
    · exact hdec
  refine ⟨hfull.trans hbare.symm, ?_, ?_, ?_⟩
  · rw [e1]
  · rw [e2]
  · rw [e1, e2]

/-- Witness for C2 (amended): the bare name `openai-key` behaves
identically with and without the scheme marker. -/
theorem C2_witness :
    stripCredScheme ("cred://" ++ "openai-key") = stripCredScheme "openai-key"
    ∧ (ApiKeyAuthPlugin.authenticate wStore
        ⟨[], mkApiKeyConfigMap "x-api-key" "" ("cred://" ++ "openai-key"), wSc⟩).1 = .ok ()
    ∧ (ApiKeyAuthPlugin.authenticate wStore
        ⟨[], mkApiKeyConfigMap "x-api-key" "" "openai-key", wSc⟩).1 = .ok ()
    ∧ (ApiKeyAuthPlugin.authenticate wStore
        ⟨[], mkApiKeyConfigMap "x-api-key" "" ("cred://" ++ "openai-key"), wSc⟩).2.headers =
      (ApiKeyAuthPlugin.authenticate wStore
        ⟨[], mkApiKeyConfigMap "x-api-key" "" "openai-key", wSc⟩).2.headers :=
  C2_cred_scheme_equiv wStore [] wSc "x-api-key" "" "openai-key" ⟨wBytes⟩
    "sk-abc123" (by decide) (by decide) (by decide) (by decide)

/-- C3: with well-formed config, an `Ok(None)` store lookup makes the
plugin fail with `SecretNotFound` carrying the configured reference exactly
as written (un-normalized), never success. -/
theorem C3_secret_not_found (cs : CredStore) (ctx : AuthContext)
    (h r : String)
    (hh : StrMap.get? ctx.config "header" = some h)
    (hr : StrMap.get? ctx.config "secret_ref" = some r)
    (href : cs.newRefErr (stripCredScheme r) = none)
    (hget : cs.get ctx.security_context (stripCredScheme r) = .ok none) :
    ApiKeyAuthPlugin.authenticate cs ctx = (.error (.SecretNotFound r), ctx) :=
  authenticate_not_found cs ctx h r hh hr href hget

/-- Witness for C3: an empty store yields `SecretNotFound "cred://openai-key"`
(the prefix kept). -/
theorem C3_witness :
    ApiKeyAuthPlugin.authenticate wEmptyStore wCtx =
      (.error (.SecretNotFound "cred://openai-key"), wCtx) :=
  C3_secret_not_found wEmptyStore wCtx "Authorization" "cred://openai-key"
    (by decide) (by decide) (by decide) (by decide)

/-- C4: with well-formed config, a stored secret whose bytes are not valid
UTF-8 makes the plugin fail with `Internal`, leaving the context (hence the
headers) untouched — no truncated or best-effort value is ever written. -/
theorem C4_invalid_utf8 (cs : CredStore) (ctx : AuthContext) (h r : String)
    (resp : GetSecretResponse)
    (hh : StrMap.get? ctx.config "header" = some h)
    (hr : StrMap.get? ctx.config "secret_ref" = some r)
    (href : cs.newRefErr (stripCredScheme r) = none)
    (hget : cs.get ctx.security_context (stripCredScheme r) = .ok (some resp))
    (hdec : utf8Decode resp.value = none) :
    ApiKeyAuthPlugin.authenticate cs ctx =
      (.error (.Internal "secret value is not valid UTF-8"), ctx) :=
  authenticate_utf8_err cs ctx h r resp hh hr href hget hdec

/-- Witness for C4: the secret bytes `[0xFF, 0xFE]` trigger the `Internal`
error. -/
theorem C4_witness :
    ApiKeyAuthPlugin.authenticate wBadUtf8Store wCtx =
      (.error (.Internal "secret value is not valid UTF-8"), wCtx) :=
  C4_invalid_utf8 wBadUtf8Store wCtx "Authorization" "cred://openai-key"
    ⟨[0xFF, 0xFE]⟩ (by decide) (by decide) (by decide) (by decide) (by decide)

/-- C5: the plugin fails with `Internal` — never success, never another
error kind — both (a) when the config lacks `header` or `secret_ref` and
(b) when the store lookup itself fails with a backend error; in both cases
the underlying cause is folded into the message string. -/
theorem C5_internal_errors :
    (∀ (cs : CredStore) (ctx : AuthContext),
      (StrMap.get? ctx.config "header" = none
        ∨ StrMap.get? ctx.config "secret_ref" = none) →
      ∃ msg, ApiKeyAuthPlugin.authenticate cs ctx =
        (.error (.Internal ("invalid apikey auth config: " ++ msg)), ctx))
    ∧ (∀ (cs : CredStore) (ctx : AuthContext) (h r e : String),
      StrMap.get? ctx.config "header" = some h →
      StrMap.get? ctx.config "secret_ref" = some r →
      cs.newRefErr (stripCredScheme r) = none →
      cs.get ctx.security_context (stripCredScheme r) = .error e →
      ApiKeyAuthPlugin.authenticate cs ctx =
        (.error (.Internal ("credstore error: " ++ e)), ctx)) := by
  constructor
  · intro cs ctx hOr
    cases hOr with
    | inl hh =>
      exact ⟨"missing field header",
        authenticate_parse_err cs ctx _ (parseApiKeyConfig_err_of_no_header ctx.config hh)⟩
    | inr hr =>
      cases hh : StrMap.get? ctx.config "header" with
      | none =>
        exact ⟨"missing field header",
          authenticate_parse_err cs ctx _ (parseApiKeyConfig_err_of_no_header ctx.config hh)⟩
      | some h =>
        exact ⟨"missing field secret_ref",
          authenticate_parse_err cs ctx _
            (parseApiKeyConfig_err_of_no_ref ctx.config h hh hr)⟩
  · intro cs ctx h r e hh hr href hget
    exact authenticate_store_err cs ctx h r e hh hr href hget

/-- Witness for C5: a config without `header` yields a malformed-config
`Internal` error, and a failing backend yields a `credstore error`
`Internal` error. -/
theorem C5_witness :
    (∃ msg, ApiKeyAuthPlugin.authenticate wStore wNoHeaderCtx =
      (.error (.Internal ("invalid apikey auth config: " ++ msg)), wNoHeaderCtx))
    ∧ ApiKeyAuthPlugin.authenticate wFailStore wCtx =
      (.error (.Internal ("credstore error: " ++ "backend failure")), wCtx) :=
  ⟨C5_internal_errors.1 wStore wNoHeaderCtx (Or.inl (by decide)),
   C5_internal_errors.2 wFailStore wCtx "Authorization" "cred://openai-key"
     "backend failure" (by decide) (by decide) (by decide) (by decide)⟩

/-- C6: two runs whose configured `header` values agree up to letter casing
(and agree on everything else) succeed and store the injected value under
the same lowercased header key, producing identical header maps. -/
theorem C6_header_casing (cs : CredStore) (hs : StrMap)
    (sc : SecurityContext) (h1 h2 p r : String) (resp : GetSecretResponse)
    (s : String)
    (hlow : lowercase h1 = lowercase h2)
    (href : cs.newRefErr (stripCredScheme r) = none)
    (hget : cs.get sc (stripCredScheme r) = .ok (some resp))
    (hdec : utf8Decode resp.value = some s) :
    (ApiKeyAuthPlugin.authenticate cs
      ⟨hs, mkApiKeyConfigMap h1 p r, sc⟩).1 = .ok ()
    ∧ (ApiKeyAuthPlugin.authenticate cs
        ⟨hs, mkApiKeyConfigMap h2 p r, sc⟩).1 = .ok ()
    ∧ (ApiKeyAuthPlugin.authenticate cs
        ⟨hs, mkApiKeyConfigMap h1 p r, sc⟩).2.headers =
      (ApiKeyAuthPlugin.authenticate cs
        ⟨hs, mkApiKeyConfigMap h2 p r, sc⟩).2.headers := by
  have e1 := authenticate_ok cs ⟨hs, mkApiKeyConfigMap h1 p r, sc⟩ h1 p r resp s
    rfl rfl rfl href hget hdec
  have e2 := authenticate_ok cs ⟨hs, mkApiKeyConfigMap h2 p r, sc⟩ h2 p r resp s
    rfl rfl rfl href hget hdec
  refine ⟨?_, ?_, ?_⟩
  · rw [e1]
  · rw [e2]
  · rw [e1, e2]; simp only []; rw [hlow]

/-- Witness for C6: `Authorization` and `authorization` store under the
same key. -/
theorem C6_witness :
    (ApiKeyAuthPlugin.authenticate wStore
      ⟨[], mkApiKeyConfigMap "Authorization" "Bearer " "cred://openai-key", wSc⟩).1 = .ok ()
    ∧ (ApiKeyAuthPlugin.authenticate wStore
        ⟨[], mkApiKeyConfigMap "authorization" "Bearer " "cred://openai-key", wSc⟩).1 = .ok ()
    ∧ (ApiKeyAuthPlugin.authenticate wStore
        ⟨[], mkApiKeyConfigMap "Authorization" "Bearer " "cred://openai-key", wSc⟩).2.headers =
      (ApiKeyAuthPlugin.authenticate wStore
        ⟨[], mkApiKeyConfigMap "authorization" "Bearer " "cred://openai-key", wSc⟩).2.headers :=
  C6_header_casing wStore [] wSc "Authorization" "authorization" "Bearer "
    "cred://openai-key" ⟨wBytes⟩ "sk-abc123" (by decide) (by decide)
    (by decide) (by decide)

/-- C7: `NoopAuthPlugin::authenticate` succeeds on every context and leaves
it — headers included — exactly as it was. -/
theorem C7_noop_identity (ctx : AuthContext) :
    NoopAuthPlugin.authenticate ctx = (.ok (), ctx) := rfl

/-- C8: `OagwConfig::default()` (and deserialization omitting the fields)
yields a 30-second proxy timeout and a 10 MiB body cap, and both values are
overridable through the configuration surface. -/
theorem C8_config_defaults :
    OagwConfig.default.proxy_timeout_secs = 30
    ∧ OagwConfig.default.max_body_size_bytes = 10 * 1024 * 1024
    ∧ OagwConfig.deserialize none none = OagwConfig.default
    ∧ ∀ t b, OagwConfig.deserialize (some t) (some b) =
        { proxy_timeout_secs := t, max_body_size_bytes := b } :=
  ⟨rfl, rfl, rfl, fun _ _ => rfl⟩

/-- C9: every failing run of `ApiKeyAuthPlugin::authenticate` leaves
`ctx.headers` (indeed the whole context) exactly as before the call: the
single header insertion happens only after every fallible step succeeded. -/
theorem C9_error_atomicity (cs : CredStore) (ctx : AuthContext)
    (e : PluginError)
    (h : (ApiKeyAuthPlugin.authenticate cs ctx).1 = .error e) :
    (ApiKeyAuthPlugin.authenticate cs ctx).2 = ctx :=
  authenticate_snd_of_err cs ctx e h

/-- Witness for C9: a backend failure returns the context unchanged. -/
theorem C9_witness :
    (ApiKeyAuthPlugin.authenticate wFailStore wCtx).2 = wCtx :=
  C9_error_atomicity wFailStore wCtx
    (.Internal ("credstore error: " ++ "backend failure")) (by decide)

/-- C10: on every successful run, the only header key written is the
lowercased configured `header`; lookups under every other key are
unchanged, and the config and security context are not modified. -/
theorem C10_success_frame (cs : CredStore) (ctx : AuthContext) (h : String)
    (hh : StrMap.get? ctx.config "header" = some h)
    (hok : (ApiKeyAuthPlugin.authenticate cs ctx).1 = .ok ()) :
    (∀ q, q ≠ lowercase h →
      StrMap.get? (ApiKeyAuthPlugin.authenticate cs ctx).2.headers q =
        StrMap.get? ctx.headers q)
    ∧ (ApiKeyAuthPlugin.authenticate cs ctx).2.config = ctx.config
    ∧ (ApiKeyAuthPlugin.authenticate cs ctx).2.security_context =
        ctx.security_context := by
  cases hr : StrMap.get? ctx.config "secret_ref" with
  | none =>
    rw [authenticate_parse_err cs ctx _
      (parseApiKeyConfig_err_of_no_ref ctx.config h hh hr)] at hok
    exact absurd hok (by simp)
  | some r =>
    cases hn : cs.newRefErr (stripCredScheme r) with
    | some e =>
      rw [ApiKeyAuthPlugin.authenticate, parseApiKeyConfig_eq ctx.config h r hh hr] at hok
      simp only [hn] at hok
      exact absurd hok (by simp)
    | none =>
      cases hg : cs.get ctx.security_context (stripCredScheme r) with
      | error e =>
        rw [authenticate_store_err cs ctx h r e hh hr hn hg] at hok
        exact absurd hok (by simp)
      | ok o =>
        cases o with
        | none =>
          rw [authenticate_not_found cs ctx h r hh hr hn hg] at hok
          exact absurd hok (by simp)
        | some resp =>
          cases hd : utf8Decode resp.value with
          | none =>
            rw [authenticate_utf8_err cs ctx h r resp hh hr hn hg hd] at hok
            exact absurd hok (by simp)
          | some s =>
            rw [authenticate_ok cs ctx h _ r resp s hh hr rfl hn hg hd]
            exact ⟨fun q hq => StrMap.get?_insert_ne ctx.headers (lowercase h) q _ hq,
              rfl, rfl⟩

/-- Witness for C10: the pre-existing `x-existing` header survives a
successful run, and config and security context stay intact. -/
theorem C10_witness :
    StrMap.get? (ApiKeyAuthPlugin.authenticate wStore wCtx).2.headers "x-existing" =
      StrMap.get? wCtx.headers "x-existing"
    ∧ (ApiKeyAuthPlugin.authenticate wStore wCtx).2.config = wCtx.config :=
  ⟨(C10_success_frame wStore wCtx "Authorization" (by decide) (by decide)).1
      "x-existing" (by decide),
   (C10_success_frame wStore wCtx "Authorization" (by decide) (by decide)).2.1⟩

end Oagw
